import Mathlib

/-
Shallow Lean embedding of three parts of the repository:

1. The Go language-server launcher
   (x-pack/legacy/plugins/code/server/lsp/go_launcher.ts):
   port selection, executable and toolchain discovery by glob search,
   environment construction, directory creation, and process spawning.
   Filesystem interaction is modelled by a World value holding the list of
   paths (files and directories) found under the installation path, relative
   to it, exactly the universe the glob library searches with the cwd option.
   Side effects of spawnProcess (mkdirSync, spawn, log.info) are returned as
   an explicit effect list; the error paths of the source throw before any
   effect, which the model reflects by returning an empty effect list.

2. The expression render handler (ExpressionRenderHandler.render).

3. The SIEM events-over-time query builder (buildEventsOverTimeQuery).

External collaborators that are not part of the repository sources
(the get-port library, calculateTimeseriesInterval, createQueryFilterClauses,
the @elastic/simple-git path table) are passed in as parameters, so every
theorem quantifies over their behaviour.
-/

namespace GoLauncher

/-- Node process.platform values relevant to the launcher. -/
inductive Platform
  | win32
  | linux
  | darwin
deriving DecidableEq

/-- Result of the paths(platform) call of @elastic/simple-git: the location
of the bundled git binary and its native directory. -/
structure GitPaths where
  binPath : String
  nativeDir : String
deriving DecidableEq

/-- The slice of ServerOptions the launcher reads: options.goPath and
options.lsp.detach. -/
structure ServerOptions where
  goPath : String
  detach : Bool
deriving DecidableEq

/-- The ambient state spawnProcess interacts with: the installation path, the
relative paths of every file and directory beneath it (the search space of
glob.sync with cwd set to the installation path), whether fs.existsSync is
true for options.goPath, the inherited process.env.PATH value, the host
platform, and the bundled git locations. -/
structure World where
  installationPath : String
  entries : List String
  goPathExists : Bool
  envPATH : String
  platform : Platform
  git : GitPaths

/- Path component machinery: paths are split on the slash character, as the
glob library does, working over character lists so that every function is
structurally recursive and evaluates inside the kernel. -/

/-- Splits a character list on slash characters; the accumulator holds the
current component reversed. -/
def splitSlashAux : List Char → List Char → List (List Char)
  | [], acc => [acc.reverse]
  | c :: cs, acc =>
    if c = '/' then acc.reverse :: splitSlashAux cs []
    else splitSlashAux cs (c :: acc)

/-- Path components of a string. -/
def pathComps (s : String) : List (List Char) :=
  splitSlashAux s.data []

/-- True when a path component starts with a dot; the glob star never
matches such a component. -/
def isDotComp : List Char → Bool
  | [] => false
  | c :: _ => c == '.'

/-- Matcher for the toolchain pattern of getBundledGoToolchain, the glob
pattern of two globstars around a literal go component: a path matches when
its components split as xs, the component go, ys, where each globstar
consumes zero or more non-dot components (minimatch lets a globstar match
zero components, so a path ending in the go component itself matches). -/
def matchGoStar : List (List Char) → Bool
  | [] => false
  | c :: cs =>
    (c == "go".data && cs.all (fun d => !isDotComp d)) ||
    (!isDotComp c && matchGoStar cs)

/-- Byte-wise strict order on character lists, modelling the alphasort the
glob library applies to its results. -/
def charListLt : List Char → List Char → Bool
  | [], [] => false
  | [], _ :: _ => true
  | _ :: _, [] => false
  | a :: as, b :: bs =>
    if a.toNat < b.toNat then true
    else if b.toNat < a.toNat then false
    else charListLt as bs

/-- Inserts a string into an already sorted list of strings. -/
def insertStr (x : String) : List String → List String
  | [] => [x]
  | y :: ys => if charListLt y.data x.data then y :: insertStr x ys else x :: y :: ys

/-- Insertion sort by the byte order, the sorted output order of glob.sync. -/
def sortStr : List String → List String
  | [] => []
  | x :: xs => insertStr x (sortStr xs)

/-- glob.sync for a single literal file name pattern (the executable search):
it matches exactly the entry equal to the pattern. -/
def globExe (name : String) (entries : List String) : List String :=
  sortStr (entries.filter (fun e => e == name))

/-- glob.sync for the toolchain pattern of globstar, go, globstar over the
entries beneath the installation path, results sorted. -/
def globGoToolchain (entries : List String) : List String :=
  sortStr (entries.filter (fun e => matchGoStar (pathComps e)))

/-- path.resolve of an absolute base with a relative path free of dot
segments, as produced by the glob search. -/
def pathResolve (base rel : String) : String :=
  base ++ "/" ++ rel

/-- path.join for the concrete uses in the launcher. -/
def pathJoin (a b : String) : String :=
  a ++ "/" ++ b

/-- Drops the last path component. -/
def dropLastComp : List (List Char) → List (List Char)
  | [] => []
  | [_] => []
  | c :: cs => c :: dropLastComp cs

/-- Joins path components with slashes. -/
def joinSlash : List (List Char) → List Char
  | [] => []
  | [c] => c
  | c :: cs => c ++ '/' :: joinSlash cs

/-- path.dirname for the slash-separated absolute paths the launcher uses. -/
def pathDirname (p : String) : String :=
  String.mk (joinSlash (dropLastComp (pathComps p)))

/-- path.delimiter of the host platform. -/
def pathDelimiter (p : Platform) : String :=
  if p = Platform.win32 then ";" else ":"

/-- Name of the language-server executable searched for, chosen from
process.platform. -/
def exeName (p : Platform) : String :=
  if p = Platform.win32 then "go-langserver.exe" else "go-langserver"

/-- The fixed well-known port of the Go language server in detach mode. -/
def GO_LANG_DETACH_PORT : Nat := 2091

/-- GoServerLauncher.getPort: the asynchronous lookup of the get-port library
is modelled by its result, the ephemeralPort argument. The source returns
that lookup unless options.lsp.detach is set, in which case it returns the
fixed constant. -/
def getPort (opts : ServerOptions) (ephemeralPort : Nat) : Nat :=
  if !opts.detach then ephemeralPort else GO_LANG_DETACH_PORT

/-- GoServerLauncher.getBundledGoToolchain: the first glob match for the
toolchain pattern resolved against the installation path, or none when there
is no match. -/
def getBundledGoToolchain (installationPath : String) (entries : List String) :
    Option String :=
  match globGoToolchain entries with
  | [] => none
  | t :: _ => some (pathResolve installationPath t)

/-- Options record passed to child_process.spawn, together with the computed
environment object: the own properties of the env object in spread order.
All keys written by the source are distinct. -/
structure SpawnConfig where
  command : String
  args : List String
  detached : Bool
  stdio : String
  env : List (String × String)
deriving DecidableEq

/-- Environment lookup in the constructed env list. Since the source writes
each key at most once, first and last occurrence coincide. -/
def envGet : List (String × String) → String → Option String
  | [], _ => none
  | (k, v) :: rest, key => if k == key then some v else envGet rest key

/-- Observable side effects of a spawnProcess run, in order: directory
creation via mkdirSync, the spawn call itself, and the log.info line
(modelled structurally by the data it reports; the pid is not modelled). -/
inductive Effect
  | mkdir (path : String)
  | spawn (cfg : SpawnConfig)
  | info (port : Nat) (goRoot : String)
deriving DecidableEq

/-- True exactly on directory-creation effects. -/
def isMkdir : Effect → Bool
  | Effect.mkdir _ => true
  | _ => false

/-- Log sink events produced by the stream handlers. -/
inductive LogEvent
  | stdout (text : String)
  | stderr (text : String)
deriving DecidableEq

/-- The ExternalProgram handle returned on success, wrapping the spawned
process (its spawn configuration) and the server options; the log argument
of the source constructor is not modelled. -/
structure ExternalProgram where
  process : SpawnConfig
  opts : ServerOptions
deriving DecidableEq

/-- Successful result of spawnProcess: the ExternalProgram handle plus the
data handlers attached to the stdout and stderr pipes, each mapping a text
chunk to the log sink call it performs. -/
structure SpawnSuccess where
  program : ExternalProgram
  onStdout : String → LogEvent
  onStderr : String → LogEvent

/-- GoServerLauncher.spawnProcess. Mirrors the source step by step:
glob search for the platform executable, throw when empty; toolchain lookup
via getBundledGoToolchain, throw when absent; mkdirSync of options.goPath
guarded by existsSync; construction of the language-server environment
(GOROOT, GOPATH, GOCACHE, CGO_ENABLED, plus PREFIX and GIT_SSL_CAINFO off
win32); PATH set to the bundled git directory, then the toolchain bin
directory, then the inherited PATH, joined by the platform delimiter; spawn
with detached false and stdio pipe; stream handlers forwarding chunks to the
log sink. The spawn env lists the own properties of the spread in source
order: PATH, CLIENT_HOST, CLIENT_PORT, then the language-server variables.
Throwing is modelled by an error result with an empty effect list. -/
def spawnProcess (w : World) (opts : ServerOptions) (port : Nat) :
    Except String SpawnSuccess × List Effect :=
  match globExe (exeName w.platform) w.entries with
  | [] => (Except.error "Cannot find executable go language server", [])
  | exe :: _ =>
    match getBundledGoToolchain w.installationPath w.entries with
    | none => (Except.error "Cannot find go toolchain in bundle installation", [])
    | some goToolchain =>
      let goRoot := goToolchain
      let goHome := pathResolve goToolchain "bin"
      let goPath := opts.goPath
      let dirEffects := if w.goPathExists then [] else [Effect.mkdir goPath]
      let goCache := pathResolve goPath ".cache"
      let langserverRelatedEnv : List (String × String) :=
        [("GOROOT", goRoot), ("GOPATH", goPath), ("GOCACHE", goCache),
         ("CGO_ENABLED", "0")] ++
        (if w.platform ≠ Platform.win32 then
          ("PREFIX", w.git.nativeDir) ::
          (if w.platform = Platform.linux then
            [("GIT_SSL_CAINFO", pathJoin w.git.nativeDir "ssl/cacert.pem")]
          else [])
        else [])
      let gitPath := pathDirname w.git.binPath
      let params := ["-port=" ++ toString port]
      let golsp := pathResolve w.installationPath exe
      let delim := pathDelimiter w.platform
      let fullPATH := gitPath ++ delim ++ goHome ++ delim ++ w.envPATH
      let env := [("PATH", fullPATH), ("CLIENT_HOST", "127.0.0.1"),
                  ("CLIENT_PORT", toString port)] ++ langserverRelatedEnv
      let cfg : SpawnConfig :=
        { command := golsp, args := params, detached := false,
          stdio := "pipe", env := env }
      (Except.ok
        { program := { process := cfg, opts := opts },
          onStdout := fun d => LogEvent.stdout d,
          onStderr := fun d => LogEvent.stderr d },
       dirEffects ++ [Effect.spawn cfg, Effect.info port goRoot])

end GoLauncher

namespace ExpressionRenderer

/-- The fields of the expression data value that render inspects: the type
tag and the renderer id field. A missing as field is none; an empty string
models a present but empty field, which is equally falsy in the source
condition. -/
structure DataObj where
  type : String
  as : Option String
deriving DecidableEq

/-- JavaScript truthiness of an optional string field: false on an absent
field and on the empty string. -/
def optStrTruthy : Option String → Bool
  | none => false
  | some s => s != ""

/-- Observable effect of a render call: invocation of the renderer looked up
in the registry. Emissions on the render observable arise only from the
done handler the invoked renderer may call, so an empty effect list also
means no value is emitted on that observable. -/
inductive RenderEffect
  | invokeRenderer (id : String)
deriving DecidableEq

/-- ExpressionRenderHandler.render. The registry is modelled by the list of
renderer ids it contains; a falsy whole-data argument is Option.none. The
source first rejects falsy data, data whose type differs from the render
tag, and data with a falsy as field, with one message; then rejects an as
id absent from the registry with a second message; otherwise invokes the
registry renderer. Throwing is modelled by an error result paired with an
empty effect list. -/
def render (registryIds : List String) (data : Option DataObj) :
    Except String Unit × List RenderEffect :=
  match data with
  | none => (Except.error "invalid data provided to expression renderer", [])
  | some d =>
    if d.type != "render" || !optStrTruthy d.as then
      (Except.error "invalid data provided to expression renderer", [])
    else
      let asId := d.as.getD ""
      if !(registryIds.contains asId) then
        (Except.error ("invalid renderer id \x27" ++ asId ++ "\x27"), [])
      else
        (Except.ok (), [RenderEffect.invokeRenderer asId])

end ExpressionRenderer

namespace Siem

/-- Timerange of a RequestBasicOptions value; the source field names from
and to are keywords in Lean, hence the Ts suffix. -/
structure Timerange where
  fromTs : Int
  timezone : Option String
  toTs : Int

/-- The slice of RequestBasicOptions that buildEventsOverTimeQuery reads:
the filter query (an opaque blob handed to createQueryFilterClauses), the
timerange, the index list, and sourceConfiguration.fields.timestamp. -/
structure RequestBasicOptions where
  filterQuery : Option String
  timerange : Timerange
  defaultIndex : List String
  timestampField : String

/-- A clause of the bool filter array: either an opaque clause produced by
createQueryFilterClauses, or the range clause the builder appends, with the
optional time_zone key present exactly when the timezone is truthy. -/
inductive FilterClause
  | query (blob : String)
  | range (field : String) (gte : Int) (lte : Int) (time_zone : Option String)
deriving DecidableEq

/-- The nested events aggregation: a date_histogram with a fixed interval
string, or an auto_date_histogram with a bucket count. -/
inductive EventsAgg
  | dateHistogram (field : String) (fixed_interval : String)
  | autoDateHistogram (field : String) (buckets : Nat)
deriving DecidableEq

/-- The terms aggregation of the eventActionGroup; order_count models the
_count key of the order object. -/
structure TermsAgg where
  field : String
  missing : String
  order_count : String
  size : Nat
deriving DecidableEq

/-- The eventActionGroup aggregation: terms plus the nested events
aggregation. -/
structure EventActionGroup where
  terms : TermsAgg
  events : EventsAgg
deriving DecidableEq

/-- Body of the search request. -/
structure QueryBody where
  eventActionGroup : EventActionGroup
  filter : List FilterClause
  size : Nat
  track_total_hits : Bool
deriving DecidableEq

/-- The full DSL query record that the builder returns. -/
structure DslQuery where
  index : List String
  allowNoIndices : Bool
  ignoreUnavailable : Bool
  body : QueryBody
deriving DecidableEq

/-- JavaScript truthiness of the numeric interval returned by
calculateTimeseriesInterval: an absent value and zero are falsy. -/
def optIntTruthy : Option Int → Bool
  | none => false
  | some v => v != 0

/-- Template rendering of the interval value inside the fixed_interval
string; an absent value renders as the text undefined, as the template
literal of the source would. -/
def intervalText : Option Int → String
  | none => "undefined"
  | some v => toString v

/-- buildEventsOverTimeQuery. The two imported helpers are passed in:
cqfc is createQueryFilterClauses applied to the filter query, and calcTI is
calculateTimeseriesInterval. The source calls calcTI with the timerange
bounds and a minimum interval of ten seconds, builds a date_histogram on
the literal timestamp field with the interval rendered into a seconds
string, an auto_date_histogram with 36 buckets, and picks the former
exactly when the interval is truthy. -/
def buildEventsOverTimeQuery
    (cqfc : Option String → List String)
    (calcTI : Int → Int → Nat → Option Int)
    (opts : RequestBasicOptions) : DslQuery :=
  let filter : List FilterClause :=
    (cqfc opts.filterQuery).map FilterClause.query ++
    [FilterClause.range opts.timestampField opts.timerange.fromTs
      opts.timerange.toTs
      (match opts.timerange.timezone with
       | none => none
       | some tz => if tz != "" then some tz else none)]
  let minIntervalSeconds : Nat := 10
  let interval := calcTI opts.timerange.fromTs opts.timerange.toTs minIntervalSeconds
  let histogramTimestampField := "@timestamp"
  let dateHistogram :=
    EventsAgg.dateHistogram histogramTimestampField (intervalText interval ++ "s")
  let autoDateHistogram :=
    EventsAgg.autoDateHistogram histogramTimestampField 36
  { index := opts.defaultIndex
    allowNoIndices := true
    ignoreUnavailable := true
    body :=
      { eventActionGroup :=
          { terms :=
              { field := "event.action", missing := "All others",
                order_count := "desc", size := 10 }
            events := if optIntTruthy interval then dateHistogram else autoDateHistogram }
        filter := filter
        size := 0
        track_total_hits := true } }

end Siem

namespace GoLauncher

/-- Concrete git locations used by the concrete worlds below. -/
def gitEx : GitPaths :=
  { binPath := "/elastic/git/bin/git", nativeDir := "/elastic/git/native" }

/-- Concrete server options used by the concrete worlds below. -/
def optsEx : ServerOptions :=
  { goPath := "/gopath", detach := false }

/-- A world whose installation path holds no entries at all. -/
def emptyWorld : World :=
  { installationPath := "/opt/lsp", entries := [], goPathExists := true,
    envPATH := "/usr/bin", platform := Platform.linux, git := gitEx }

/-- A world holding the executable at the installation root but no go
toolchain directory. -/
def exeOnlyWorld : World :=
  { emptyWorld with entries := ["go-langserver"] }

/-- The scenario world of the spec: installation path /opt/lsp with the
executable at the root and the directory sdk/go/bin present. -/
def scenarioWorld : World :=
  { emptyWorld with entries := ["go-langserver", "sdk", "sdk/go", "sdk/go/bin"] }

/-- The scenario world with the goPath directory missing on disk. -/
def noGoPathWorld : World :=
  { scenarioWorld with goPathExists := false }

end GoLauncher

namespace ExpressionRenderer

/-- Concrete data value with a renderer id absent from the registry. -/
def unknownIdData : DataObj :=
  { type := "render", as := some "tab" }

end ExpressionRenderer

namespace Siem

/-- Concrete request options used by the concrete query evaluation. -/
def optsEvents : RequestBasicOptions :=
  { filterQuery := none,
    timerange := { fromTs := 0, timezone := none, toTs := 3600 },
    defaultIndex := ["logs"],
    timestampField := "@timestamp" }

end Siem

namespace GoLauncher

/-- C1: for every installation path on which the glob search for the
platform-specific executable finds no match, spawnProcess fails with the
executable-not-found error and performs no side effect at all: no directory
creation, no spawn, no environment construction. -/
theorem spawnProcess_missing_executable (w : World) (opts : ServerOptions)
    (port : Nat) (h : globExe (exeName w.platform) w.entries = []) :
    spawnProcess w opts port =
      (Except.error "Cannot find executable go language server", []) := by
  unfold spawnProcess
  rw [h]

/-- Witness for C1 at the empty world. -/
theorem spawnProcess_missing_executable_witness :
    globExe (exeName emptyWorld.platform) emptyWorld.entries = [] ∧
    spawnProcess emptyWorld optsEx 4000 =
      (Except.error "Cannot find executable go language server", []) :=
  ⟨rfl, spawnProcess_missing_executable emptyWorld optsEx 4000 rfl⟩

/-- C2 counterexample: the empty world is an installation path on which the
toolchain glob finds no match, yet spawnProcess does not fail with the
toolchain error; the executable check fires first. -/
theorem toolchain_missing_claim_counterexample :
    globGoToolchain emptyWorld.entries = [] ∧
    (spawnProcess emptyWorld optsEx 5000).1 =
      Except.error "Cannot find executable go language server" ∧
    (spawnProcess emptyWorld optsEx 5000).1 ≠
      Except.error "Cannot find go toolchain in bundle installation" := by
  refine ⟨rfl, rfl, ?_⟩
  intro h
  exact absurd (Except.error.inj h) (by decide)

/-- C2 amended: for every installation path on which the executable glob
finds a match but the toolchain glob finds none, spawnProcess fails with the
toolchain error and performs no side effect. -/
theorem spawnProcess_missing_toolchain (w : World) (opts : ServerOptions)
    (port : Nat) {exe : String} {es : List String}
    (h1 : globExe (exeName w.platform) w.entries = exe :: es)
    (h2 : globGoToolchain w.entries = []) :
    spawnProcess w opts port =
      (Except.error "Cannot find go toolchain in bundle installation", []) := by
  unfold spawnProcess getBundledGoToolchain
  rw [h1, h2]

/-- Witness for the amended C2 at the world holding only the executable. -/
theorem spawnProcess_missing_toolchain_witness :
    globExe (exeName exeOnlyWorld.platform) exeOnlyWorld.entries =
      ["go-langserver"] ∧
    globGoToolchain exeOnlyWorld.entries = [] ∧
    spawnProcess exeOnlyWorld optsEx 5000 =
      (Except.error "Cannot find go toolchain in bundle installation", []) :=
  ⟨rfl, rfl, spawnProcess_missing_toolchain exeOnlyWorld optsEx 5000 rfl rfl⟩

/-- C3: getPort returns the fixed well-known detach port 2091 whenever
options.lsp.detach is set and the ephemeral get-port lookup result
otherwise, and the detach-mode result does not depend on the lookup. -/
theorem getPort_detach_behavior (opts : ServerOptions) (e : Nat) :
    getPort opts e = (if opts.detach then GO_LANG_DETACH_PORT else e) ∧
    GO_LANG_DETACH_PORT = 2091 ∧
    (∀ (g : String) (e1 e2 : Nat),
      getPort { goPath := g, detach := true } e1 =
        getPort { goPath := g, detach := true } e2) := by
  refine ⟨?_, rfl, fun g e1 e2 => rfl⟩
  rcases opts with ⟨g, d⟩
  cases d <;> rfl

/-- C4: on every successful spawn the environment passed to the subprocess
binds GOROOT to the resolved toolchain path, GOPATH to options.goPath,
GOCACHE to the .cache directory under it, CGO_ENABLED to the string 0,
CLIENT_HOST to 127.0.0.1, CLIENT_PORT to the decimal string of the port,
and PATH to the bundled git binary directory followed by the toolchain bin
directory followed by the inherited PATH, joined by the platform path
delimiter. -/
theorem spawnProcess_env_vars (w : World) (opts : ServerOptions) (port : Nat)
    {exe t : String} {es ts : List String}
    (h1 : globExe (exeName w.platform) w.entries = exe :: es)
    (h2 : globGoToolchain w.entries = t :: ts) :
    ∃ s : SpawnSuccess, (spawnProcess w opts port).1 = Except.ok s ∧
      envGet s.program.process.env "GOROOT" =
        some (pathResolve w.installationPath t) ∧
      envGet s.program.process.env "GOPATH" = some opts.goPath ∧
      envGet s.program.process.env "GOCACHE" =
        some (pathResolve opts.goPath ".cache") ∧
      envGet s.program.process.env "CGO_ENABLED" = some "0" ∧
      envGet s.program.process.env "CLIENT_HOST" = some "127.0.0.1" ∧
      envGet s.program.process.env "CLIENT_PORT" = some (toString port) ∧
      envGet s.program.process.env "PATH" =
        some (pathDirname w.git.binPath ++ pathDelimiter w.platform ++
          pathResolve (pathResolve w.installationPath t) "bin" ++
          pathDelimiter w.platform ++ w.envPATH) := by
  unfold spawnProcess getBundledGoToolchain
  rw [h1, h2]
  exact ⟨_, rfl, rfl, rfl, rfl, rfl, rfl, rfl, rfl⟩

/-- Witness for C4 at the scenario world. -/
theorem spawnProcess_env_vars_witness :
    globExe (exeName scenarioWorld.platform) scenarioWorld.entries =
      ["go-langserver"] ∧
    globGoToolchain scenarioWorld.entries = ["sdk/go", "sdk/go/bin"] ∧
    ∃ s : SpawnSuccess, (spawnProcess scenarioWorld optsEx 7000).1 = Except.ok s ∧
      envGet s.program.process.env "GOROOT" = some "/opt/lsp/sdk/go" ∧
      envGet s.program.process.env "GOPATH" = some "/gopath" ∧
      envGet s.program.process.env "GOCACHE" = some "/gopath/.cache" ∧
      envGet s.program.process.env "CGO_ENABLED" = some "0" ∧
      envGet s.program.process.env "CLIENT_HOST" = some "127.0.0.1" ∧
      envGet s.program.process.env "CLIENT_PORT" = some "7000" ∧
      envGet s.program.process.env "PATH" =
        some "/elastic/git/bin:/opt/lsp/sdk/go/bin:/usr/bin" :=
  ⟨rfl, rfl, spawnProcess_env_vars scenarioWorld optsEx 7000 rfl rfl⟩

/-- C5: whenever spawnProcess reaches the environment-construction stage,
it creates the directory named by options.goPath exactly when existsSync is
false for it, and performs no other directory creation. -/
theorem spawnProcess_mkdir_iff_missing (w : World) (opts : ServerOptions)
    (port : Nat) {exe t : String} {es ts : List String}
    (h1 : globExe (exeName w.platform) w.entries = exe :: es)
    (h2 : globGoToolchain w.entries = t :: ts) :
    (spawnProcess w opts port).2.filter isMkdir =
      (if w.goPathExists then [] else [Effect.mkdir opts.goPath]) := by
  unfold spawnProcess getBundledGoToolchain
  rw [h1, h2]
  cases hgp : w.goPathExists <;> simp [isMkdir]

/-- Witness for C5 at the scenario world with the goPath directory missing,
where exactly one mkdir effect for the goPath directory occurs. -/
theorem spawnProcess_mkdir_iff_missing_witness :
    globExe (exeName noGoPathWorld.platform) noGoPathWorld.entries =
      ["go-langserver"] ∧
    globGoToolchain noGoPathWorld.entries = ["sdk/go", "sdk/go/bin"] ∧
    (spawnProcess noGoPathWorld optsEx 7000).2.filter isMkdir =
      [Effect.mkdir "/gopath"] :=
  ⟨rfl, rfl, spawnProcess_mkdir_iff_missing noGoPathWorld optsEx 7000 rfl rfl⟩

/-- C6: discovery is first-match-wins: the spawned command is the first glob
match for the executable resolved against the installation path, and GOROOT
is the first glob match for the toolchain pattern resolved against the
installation path. -/
theorem spawnProcess_first_match_wins (w : World) (opts : ServerOptions)
    (port : Nat) {exe t : String} {es ts : List String}
    (h1 : globExe (exeName w.platform) w.entries = exe :: es)
    (h2 : globGoToolchain w.entries = t :: ts) :
    ∃ s : SpawnSuccess, (spawnProcess w opts port).1 = Except.ok s ∧
      s.program.process.command = pathResolve w.installationPath exe ∧
      envGet s.program.process.env "GOROOT" =
        some (pathResolve w.installationPath t) := by
  unfold spawnProcess getBundledGoToolchain
  rw [h1, h2]
  exact ⟨_, rfl, rfl, rfl⟩

/-- Witness for C6: the spec scenario, installation path /opt/lsp holding
go-langserver at the root and the directory sdk/go/bin, spawned at port
5000, yields GOROOT equal to /opt/lsp/sdk/go. -/
theorem spawnProcess_first_match_wins_witness :
    globExe (exeName scenarioWorld.platform) scenarioWorld.entries =
      ["go-langserver"] ∧
    globGoToolchain scenarioWorld.entries = ["sdk/go", "sdk/go/bin"] ∧
    ∃ s : SpawnSuccess, (spawnProcess scenarioWorld optsEx 5000).1 = Except.ok s ∧
      s.program.process.command = "/opt/lsp/go-langserver" ∧
      envGet s.program.process.env "GOROOT" = some "/opt/lsp/sdk/go" :=
  ⟨rfl, rfl, spawnProcess_first_match_wins scenarioWorld optsEx 5000 rfl rfl⟩

/-- C7: on success the process is spawned with stdio pipe and detached
false, the stdout and stderr handlers forward each text chunk to the
corresponding log sink call, and the returned handle wraps the spawned
process configuration. -/
theorem spawnProcess_pipe_and_log_wiring (w : World) (opts : ServerOptions)
    (port : Nat) {exe t : String} {es ts : List String}
    (h1 : globExe (exeName w.platform) w.entries = exe :: es)
    (h2 : globGoToolchain w.entries = t :: ts) :
    ∃ s : SpawnSuccess, (spawnProcess w opts port).1 = Except.ok s ∧
      s.program.process.stdio = "pipe" ∧
      s.program.process.detached = false ∧
      Effect.spawn s.program.process ∈ (spawnProcess w opts port).2 ∧
      s.program.opts = opts ∧
      (∀ d, s.onStdout d = LogEvent.stdout d) ∧
      (∀ d, s.onStderr d = LogEvent.stderr d) := by
  unfold spawnProcess getBundledGoToolchain
  rw [h1, h2]
  refine ⟨_, rfl, rfl, rfl, ?_, rfl, fun d => rfl, fun d => rfl⟩
  simp [List.mem_append]

/-- Witness for C7 at the scenario world. -/
theorem spawnProcess_pipe_and_log_wiring_witness :
    globExe (exeName scenarioWorld.platform) scenarioWorld.entries =
      ["go-langserver"] ∧
    globGoToolchain scenarioWorld.entries = ["sdk/go", "sdk/go/bin"] ∧
    ∃ s : SpawnSuccess, (spawnProcess scenarioWorld optsEx 6000).1 = Except.ok s ∧
      s.program.process.stdio = "pipe" ∧
      s.program.process.detached = false ∧
      Effect.spawn s.program.process ∈ (spawnProcess scenarioWorld optsEx 6000).2 ∧
      s.program.opts = optsEx ∧
      (∀ d, s.onStdout d = LogEvent.stdout d) ∧
      (∀ d, s.onStderr d = LogEvent.stderr d) :=
  ⟨rfl, rfl, spawnProcess_pipe_and_log_wiring scenarioWorld optsEx 6000 rfl rfl⟩

/-- C8: the executable check strictly precedes the toolchain check: on every
installation path missing both, the failure is the executable error with no
effects, and a toolchain failure can only arise when the executable glob
found a match. -/
theorem executable_check_precedes_toolchain_check :
    (∀ (w : World) (opts : ServerOptions) (port : Nat),
      globExe (exeName w.platform) w.entries = [] →
      globGoToolchain w.entries = [] →
      spawnProcess w opts port =
        (Except.error "Cannot find executable go language server", [])) ∧
    (∀ (w : World) (opts : ServerOptions) (port : Nat),
      (spawnProcess w opts port).1 =
        Except.error "Cannot find go toolchain in bundle installation" →
      globExe (exeName w.platform) w.entries ≠ []) := by
  constructor
  · intro w opts port h1 _
    unfold spawnProcess
    rw [h1]
  · intro w opts port h hempty
    have e : spawnProcess w opts port =
        (Except.error "Cannot find executable go language server", []) := by
      unfold spawnProcess
      rw [hempty]
    rw [e] at h
    exact absurd (Except.error.inj h) (by decide)

/-- Witness for C8 at the empty world, missing both the executable and the
toolchain. -/
theorem executable_check_precedes_toolchain_check_witness :
    globExe (exeName emptyWorld.platform) emptyWorld.entries = [] ∧
    globGoToolchain emptyWorld.entries = [] ∧
    spawnProcess emptyWorld optsEx 3000 =
      (Except.error "Cannot find executable go language server", []) :=
  ⟨rfl, rfl,
    executable_check_precedes_toolchain_check.1 emptyWorld optsEx 3000 rfl rfl⟩

end GoLauncher

namespace ExpressionRenderer

/-- C9: render throws the invalid-data error for falsy data, for data whose
type tag is not render, and for data with a falsy as field; it throws the
invalid-renderer-id error naming the id when the registry has no entry for
it; in every such case no renderer is invoked and so nothing is emitted on
the render observable. -/
theorem render_invalid_input_errors :
    (∀ reg : List String, render reg none =
      (Except.error "invalid data provided to expression renderer", [])) ∧
    (∀ (reg : List String) (d : DataObj), d.type ≠ "render" →
      render reg (some d) =
        (Except.error "invalid data provided to expression renderer", [])) ∧
    (∀ (reg : List String) (d : DataObj), optStrTruthy d.as = false →
      render reg (some d) =
        (Except.error "invalid data provided to expression renderer", [])) ∧
    (∀ (reg : List String) (d : DataObj) (s : String),
      d.type = "render" → d.as = some s → s ≠ "" →
      reg.contains s = false →
      render reg (some d) =
        (Except.error ("invalid renderer id \x27" ++ s ++ "\x27"), [])) := by
  refine ⟨fun reg => rfl, ?_, ?_, ?_⟩
  · intro reg d h
    have hb : (d.type != "render") = true := bne_iff_ne.mpr h
    simp only [render]
    rw [hb]
    rfl
  · intro reg d h
    simp only [render]
    rw [h]
    simp
  · intro reg d s ht has hs hreg
    have hb : (s != "") = true := bne_iff_ne.mpr hs
    have hm : s ∉ reg := by simpa using hreg
    simp only [render]
    rw [ht, has]
    simp [optStrTruthy, hb, hm]

/-- Witness for C9: a registry containing only the id vis rejects data whose
id is tab with the invalid-renderer-id message naming tab. -/
theorem render_invalid_input_errors_witness :
    unknownIdData.type = "render" ∧
    unknownIdData.as = some "tab" ∧
    (["vis"] : List String).contains "tab" = false ∧
    render ["vis"] (some unknownIdData) =
      (Except.error "invalid renderer id \x27tab\x27", []) :=
  ⟨rfl, rfl, rfl,
    render_invalid_input_errors.2.2.2 ["vis"] unknownIdData "tab" rfl rfl
      (by decide) rfl⟩

end ExpressionRenderer

namespace Siem

/-- C10: for every request the built query body has size 0 and
track_total_hits true, the eventActionGroup terms aggregation targets the
event.action field with size 10, missing bucket All others and descending
count order, and the nested events aggregation is a date_histogram on the
timestamp field with the interval rendered into a seconds string exactly
when calculateTimeseriesInterval of the timerange with minimum 10 is truthy,
and otherwise an auto_date_histogram with 36 buckets. -/
theorem buildEventsOverTimeQuery_shape
    (cqfc : Option String → List String)
    (calcTI : Int → Int → Nat → Option Int)
    (opts : RequestBasicOptions) :
    (buildEventsOverTimeQuery cqfc calcTI opts).body.size = 0 ∧
    (buildEventsOverTimeQuery cqfc calcTI opts).body.track_total_hits = true ∧
    (buildEventsOverTimeQuery cqfc calcTI opts).body.eventActionGroup.terms =
      { field := "event.action", missing := "All others",
        order_count := "desc", size := 10 } ∧
    (∀ v : Int,
      calcTI opts.timerange.fromTs opts.timerange.toTs 10 = some v → v ≠ 0 →
      (buildEventsOverTimeQuery cqfc calcTI opts).body.eventActionGroup.events =
        EventsAgg.dateHistogram "@timestamp" (toString v ++ "s")) ∧
    (optIntTruthy (calcTI opts.timerange.fromTs opts.timerange.toTs 10) = false →
      (buildEventsOverTimeQuery cqfc calcTI opts).body.eventActionGroup.events =
        EventsAgg.autoDateHistogram "@timestamp" 36) := by
  refine ⟨rfl, rfl, rfl, ?_, ?_⟩
  · intro v hv hnz
    have hb : (v != 0) = true := bne_iff_ne.mpr hnz
    simp only [buildEventsOverTimeQuery]
    rw [hv]
    simp [optIntTruthy, intervalText, hb]
  · intro hf
    simp only [buildEventsOverTimeQuery]
    rw [hf]
    simp

/-- Witness for C10 with a calculateTimeseriesInterval returning a truthy 30
seconds, yielding a date_histogram with fixed interval 30s. -/
theorem buildEventsOverTimeQuery_shape_witness :
    ((fun _ _ _ => some 30 : Int → Int → Nat → Option Int)
        optsEvents.timerange.fromTs optsEvents.timerange.toTs 10 = some 30) ∧
    ((30 : Int) ≠ 0) ∧
    (buildEventsOverTimeQuery (fun _ => []) (fun _ _ _ => some 30)
        optsEvents).body.eventActionGroup.events =
      EventsAgg.dateHistogram "@timestamp" "30s" :=
  ⟨rfl, by decide,
    (buildEventsOverTimeQuery_shape (fun _ => []) (fun _ _ _ => some 30)
      optsEvents).2.2.2.1 30 rfl (by decide)⟩

end Siem
